import Mathlib

/-!
Verification of the fastkml overlay serialization engine
(`fastkml/helpers.py` and `fastkml/overlays.py`).

The XML element tree is modelled by an inductive `Elem` (tag, optional
text, list of children), mirroring the Element collaborator contract:
find first child by qualified name, get/set text, append child.

Python string and integer primitives used by the code (`str.strip`,
`str.lower`, `int(...)`, `str(int)`) are modelled explicitly below.
-/

namespace FastKML

/-- Model of the Python `str.strip()` whitespace set. -/
def pySpace (c : Char) : Bool :=
  c = ' ' || c = '\t' || c = '\n' || c = '\x0d' || c = '\x0b' || c = '\x0c'

/-- Model of Python `str.strip()`: drop leading and trailing whitespace. -/
def pyStrip (s : String) : String :=
  ⟨((s.data.dropWhile pySpace).reverse.dropWhile pySpace).reverse⟩

/-- Model of Python `str.lower()` restricted to ASCII letters, which is all
the code compares against (`"1"/"true"/"0"/"false"`). -/
def asciiLower (c : Char) : Char :=
  if 'A' ≤ c ∧ c ≤ 'Z' then Char.ofNat (c.toNat + 32) else c

/-- Model of Python `str.lower()`. -/
def pyLower (s : String) : String :=
  ⟨s.data.map asciiLower⟩

/-- The character for a decimal digit value below ten. -/
def digitCh (d : Nat) : Char :=
  match d with
  | 0 => '0' | 1 => '1' | 2 => '2' | 3 => '3' | 4 => '4'
  | 5 => '5' | 6 => '6' | 7 => '7' | 8 => '8' | _ => '9'

/-- Fuel-driven digit extraction, least significant digit first; the
fuel only bounds the recursion depth so that the definition is
structural and kernel-evaluable. -/
def natDigitsGo : Nat → Nat → List Char
  | 0, _ => []
  | _ + 1, 0 => []
  | fuel + 1, n => digitCh (n % 10) :: natDigitsGo fuel (n / 10)

/-- The decimal digits of a natural number, least significant first
(empty for zero). -/
def natDigits (n : Nat) : List Char :=
  natDigitsGo n n

/-- Model of Python `str(n)` for a natural number. -/
def natToStr (n : Nat) : String :=
  if n = 0 then "0" else ⟨(natDigits n).reverse⟩

/-- Model of Python `str(i)` for an integer. -/
def intToStr (i : Int) : String :=
  if i < 0 then "-" ++ natToStr (-i).toNat else natToStr i.toNat

/-- The value of a decimal digit character, if it is one. -/
def digitVal (c : Char) : Option Nat :=
  if '0' ≤ c ∧ c ≤ '9' then some (c.toNat - '0'.toNat) else none

/-- Accumulating big-endian decimal evaluation of a digit string. -/
def digitsValGo (acc : Nat) : List Char → Option Nat
  | [] => some acc
  | c :: cs =>
    match digitVal c with
    | some d => digitsValGo (acc * 10 + d) cs
    | none => none

/-- Big-endian decimal value of a non-empty all-digit character list. -/
def digitsVal (l : List Char) : Option Nat :=
  match l with
  | [] => none
  | _ => digitsValGo 0 l

/-- Model of Python `int(text)` on already-stripped text: an optional
sign followed by one or more decimal digits.  (Digit-group underscores
and non-ASCII digits accepted by CPython are not modelled; no claim
depends on them.) -/
def pyIntParse (s : String) : Option Int :=
  match s.data with
  | [] => none
  | c :: rest =>
    if c = '-' then (digitsVal rest).map (fun n => -(n : Int))
    else if c = '+' then (digitsVal rest).map (fun n => (n : Int))
    else (digitsVal (c :: rest)).map (fun n => (n : Int))

/-- The XML element model: tag, optional text node, ordered children.
This is the Element collaborator consumed by the codec functions. -/
inductive Elem where
  | mk (tag : String) (text : Option String) (children : List Elem)

/-- The tag of an element. -/
def Elem.tag : Elem → String
  | .mk t _ _ => t

/-- The text node of an element (`None` when absent). -/
def Elem.text : Elem → Option String
  | .mk _ x _ => x

/-- The ordered list of direct children of an element. -/
def Elem.children : Elem → List Elem
  | .mk _ _ cs => cs

/-- `etree.SubElement` / `element.append`: add one child at the end. -/
def Elem.withChild : Elem → Elem → Elem
  | .mk t x cs, c => .mk t x (cs ++ [c])

/-- `element.find(name)`: first direct child with the given tag. -/
def Elem.findChild (e : Elem) (t : String) : Option Elem :=
  e.children.find? (fun c => c.tag == t)

/-- Structured errors raised by the parsing layer: a numeric-text
failure (Python `ValueError` from `int`/`float`), an enumerated-token
failure naming the node and token, and the range `ValidationError`
naming the offending field. -/
inductive KmlError where
  | numParse (node text : String)
  | enumParse (node text : String)
  | validation (field : String)
deriving DecidableEq

/-- Modelled from the spec: the altitude-interpretation enumeration
(`fastkml.enums.AltitudeMode` is not among the provided sources); its
token set is the one exercised by the repository's tests. -/
inductive AltitudeMode where
  | clampToGround
  | relativeToGround
  | absolute
  | clampToSeaFloor
  | relativeToSeaFloor
deriving DecidableEq

/-- The canonical token of an altitude mode (the Python enum `.value`). -/
def AltitudeMode.value : AltitudeMode → String
  | .clampToGround => "clampToGround"
  | .relativeToGround => "relativeToGround"
  | .absolute => "absolute"
  | .clampToSeaFloor => "clampToSeaFloor"
  | .relativeToSeaFloor => "relativeToSeaFloor"

/-- Exact, case-sensitive construction of an altitude mode from a token. -/
def AltitudeMode.fromToken (s : String) : Option AltitudeMode :=
  if s = "clampToGround" then some .clampToGround
  else if s = "relativeToGround" then some .relativeToGround
  else if s = "absolute" then some .absolute
  else if s = "clampToSeaFloor" then some .clampToSeaFloor
  else if s = "relativeToSeaFloor" then some .relativeToSeaFloor
  else none

/-- Modelled from the spec: the grid-origin-corner enumeration
(`fastkml.enums.GridOrigin` is not among the provided sources). -/
inductive GridOrigin where
  | lowerLeft
  | upperLeft
deriving DecidableEq

/-- The canonical token of a grid origin (the Python enum `.value`). -/
def GridOrigin.value : GridOrigin → String
  | .lowerLeft => "lowerLeft"
  | .upperLeft => "upperLeft"

/-- Exact, case-sensitive construction of a grid origin from a token. -/
def GridOrigin.fromToken (s : String) : Option GridOrigin :=
  if s = "lowerLeft" then some .lowerLeft
  else if s = "upperLeft" then some .upperLeft
  else none

/-- Modelled from the spec: the photo-overlay projection-shape
enumeration (`fastkml.enums.Shape` is not among the provided sources);
domain `{rectangle, cylinder, sphere}`. -/
inductive Shape where
  | rectangle
  | cylinder
  | sphere
deriving DecidableEq

/-- The canonical token of a shape (the Python enum `.value`). -/
def Shape.value : Shape → String
  | .rectangle => "rectangle"
  | .cylinder => "cylinder"
  | .sphere => "sphere"

/-- Exact, case-sensitive construction of a shape from a token. -/
def Shape.fromToken (s : String) : Option Shape :=
  if s = "rectangle" then some .rectangle
  else if s = "cylinder" then some .cylinder
  else if s = "sphere" then some .sphere
  else none

/-- Modelled from the spec: float payloads of the codec are modelled as
exact decimal integers (binary floating point, fractional rendering and
precision formatting are outside the embedding's scope; precision
formatting is the documented lossy case excluded by the round-trip
claims). -/
abbrev MFloat := Int

/-!
Writer half of the field codec (`fastkml/helpers.py`).  In the source
each writer receives `(obj, element, attr_name, node_name)` and reads
`getattr(obj, attr_name, None)` and `obj.ns`; the shallow embedding
passes the projected attribute value and the namespace directly.
Python truthiness of the attribute value is made explicit per type:
a string is truthy iff non-empty, an integer iff nonzero, a boolean iff
`True`, an enum member always, a nested object per its `__bool__`.
-/

/-- Writer for text attributes, from `helpers.simple_text_subelement`:
no-op on an absent or falsy (empty) string, otherwise one subelement
named `{ns}{node_name}` whose text is the attribute verbatim. -/
def simple_text_subelement
    (ns : String) (attr : Option String) (node_name : String)
    (element : Elem) : Elem :=
  match attr with
  | some s => if s ≠ "" then element.withChild (.mk (ns ++ node_name) (some s) []) else element
  | none => element

/-- Modelled from the spec: `helpers.text_subelement` (imported by
`overlays.py` but not among the provided sources) — the same omit-falsy
verbatim text writer as `simple_text_subelement`. -/
def text_subelement
    (ns : String) (attr : Option String) (node_name : String)
    (element : Elem) : Elem :=
  simple_text_subelement ns attr node_name element

/-- Writer for boolean attributes, from `helpers.bool_subelement`:
no-op on an absent or falsy (`False`) value, otherwise one subelement
with text `str(int(value))`. -/
def bool_subelement
    (ns : String) (attr : Option Bool) (node_name : String)
    (element : Elem) : Elem :=
  match attr with
  | some b =>
    if b then element.withChild (.mk (ns ++ node_name) (some (intToStr (if b then 1 else 0))) [])
    else element
  | none => element

/-- Modelled from the spec: `helpers.int_subelement` (imported by
`overlays.py` but not among the provided sources) — omit an absent or
falsy (zero) integer, otherwise one subelement with the decimal string. -/
def int_subelement
    (ns : String) (attr : Option Int) (node_name : String)
    (element : Elem) : Elem :=
  match attr with
  | some n => if n ≠ 0 then element.withChild (.mk (ns ++ node_name) (some (intToStr n)) []) else element
  | none => element

/-- Modelled from the spec: `helpers.float_subelement` (imported by
`overlays.py` but not among the provided sources) — omit an absent or
falsy (zero) value, otherwise one subelement with its decimal string
(default precision; explicit precision formatting is the documented
lossy case and is not modelled). -/
def float_subelement
    (ns : String) (attr : Option MFloat) (node_name : String)
    (element : Elem) : Elem :=
  match attr with
  | some v => if v ≠ 0 then element.withChild (.mk (ns ++ node_name) (some (intToStr v)) []) else element
  | none => element

/-- Modelled from the spec: `helpers.enum_subelement` (imported by
`overlays.py` but not among the provided sources) — omit an absent
enum attribute (a member is always truthy), otherwise one subelement
whose text is the member's canonical token. -/
def enum_subelement {α : Type} (value : α → String)
    (ns : String) (attr : Option α) (node_name : String)
    (element : Elem) : Elem :=
  match attr with
  | some v => element.withChild (.mk (ns ++ node_name) (some (value v)) [])
  | none => element

/-- Writer for nested entities, from `helpers.xml_subelement`: if the
attribute is absent or falsy (per the nested type's `__bool__`) do
nothing, otherwise append the child's own serialized element.  (The
source's dynamic `getattr`/method dispatch is passed explicitly as the
truthiness test and serializer of the nested type.) -/
def xml_subelement {α : Type} (truthy : α → Bool) (ser : α → Elem)
    (attr : Option α) (element : Elem) : Elem :=
  match attr with
  | some v => if truthy v then element.withChild (ser v) else element
  | none => element

/-!
Reader half of the field codec.  Each reader returns the partial
keyword mapping `{kwarg: value}` as an `Option`; readers that can raise
return `Except KmlError`.
-/

/-- Reader for text attributes, from `helpers.subelement_text_kwarg`:
absent child, absent text, or empty/whitespace-only text gives the
empty mapping; otherwise the stripped text.  The `strict` flag is
accepted and ignored, as in the source. -/
def subelement_text_kwarg
    (element : Elem) (ns : String) (node_name : String) (strict : Bool)
    : Option String :=
  match element.findChild (ns ++ node_name) with
  | none => none
  | some node =>
    match node.text with
    | none => none
    | some t => if t ≠ "" ∧ pyStrip t ≠ "" then some (pyStrip t) else none

/-- Reader for boolean attributes, from `helpers.subelement_bool_kwarg`:
absent child or empty text gives the empty mapping; otherwise in strict
mode `bool(int(text))` (a non-integer literal raises), and in lenient
mode case-insensitive `1/true` and `0/false` with anything else
silently dropped. -/
def subelement_bool_kwarg
    (element : Elem) (ns : String) (node_name : String) (strict : Bool)
    : Except KmlError (Option Bool) :=
  match element.findChild (ns ++ node_name) with
  | none => .ok none
  | some node =>
    match node.text with
    | none => .ok none
    | some t =>
      if t ≠ "" ∧ pyStrip t ≠ "" then
        if strict then
          match pyIntParse (pyStrip t) with
          | some n => .ok (some (n != 0))
          | none => .error (.numParse node_name (pyStrip t))
        else
          if pyLower (pyStrip t) = "1" ∨ pyLower (pyStrip t) = "true" then .ok (some true)
          else if pyLower (pyStrip t) = "0" ∨ pyLower (pyStrip t) = "false" then .ok (some false)
          else .ok none
      else .ok none

/-- Modelled from the spec: `helpers.subelement_int_kwarg` (imported by
`overlays.py` but not among the provided sources) — absent child or
empty/whitespace-only text gives the empty mapping; present
unparseable text raises a structured error in both modes. -/
def subelement_int_kwarg
    (element : Elem) (ns : String) (node_name : String) (strict : Bool)
    : Except KmlError (Option Int) :=
  match element.findChild (ns ++ node_name) with
  | none => .ok none
  | some node =>
    match node.text with
    | none => .ok none
    | some t =>
      if pyStrip t ≠ "" then
        match pyIntParse (pyStrip t) with
        | some n => .ok (some n)
        | none => .error (.numParse node_name (pyStrip t))
      else .ok none

/-- Modelled from the spec: `helpers.subelement_float_kwarg` (imported
by `overlays.py` but not among the provided sources) — as the integer
reader, over the decimal-modelled float payload. -/
def subelement_float_kwarg
    (element : Elem) (ns : String) (node_name : String) (strict : Bool)
    : Except KmlError (Option MFloat) :=
  match element.findChild (ns ++ node_name) with
  | none => .ok none
  | some node =>
    match node.text with
    | none => .ok none
    | some t =>
      if pyStrip t ≠ "" then
        match pyIntParse (pyStrip t) with
        | some n => .ok (some n)
        | none => .error (.numParse node_name (pyStrip t))
      else .ok none

/-- Modelled from the spec: `helpers.subelement_enum_kwarg` (imported
by `overlays.py` but not among the provided sources) — absent child or
empty text gives the empty mapping; an unrecognized token raises a
structured error naming the node and token in strict mode and is
silently dropped in lenient mode. -/
def subelement_enum_kwarg {α : Type} (fromToken : String → Option α)
    (element : Elem) (ns : String) (node_name : String) (strict : Bool)
    : Except KmlError (Option α) :=
  match element.findChild (ns ++ node_name) with
  | none => .ok none
  | some node =>
    match node.text with
    | none => .ok none
    | some t =>
      if pyStrip t ≠ "" then
        match fromToken (pyStrip t) with
        | some v => .ok (some v)
        | none =>
          if strict then .error (.enumParse node_name (pyStrip t))
          else .ok none
      else .ok none

/-- Reader for nested entities, from `helpers.xml_subelement_kwarg`:
find the first child tagged with the nested class's qualified tag name
and delegate to that class's own deserializer; an absent child gives
the empty mapping. -/
def xml_subelement_kwarg {α : Type} (tagName : String)
    (fromEl : Elem → Except KmlError α)
    (element : Elem) (ns : String)
    : Except KmlError (Option α) :=
  match element.findChild (ns ++ tagName) with
  | none => .ok none
  | some sub => (fromEl sub).map some

/-!
Entity kinds of the Overlay family (`fastkml/overlays.py`).  Each
entity carries its namespace prefix `ns` (from the `_XMLObject` base).
Fields whose classes are outside the provided sources and outside the
spec's core (the `Icon` nested entity of `_Overlay` and the geometry
`Point` of `PhotoOverlay`; the inherited `_Feature` attributes) are
modelled as absent: the embedded records hold exactly the fields whose
codecs the claims are about.  `etree_element` super-calls
(`_XMLObject.etree_element`, not among the provided sources) are
modelled from the spec as building a fresh element tagged
`{ns}{TagName}`.
-/

/-- The `ViewVolume` record (`overlays.ViewVolume`): five optional
float fields. -/
structure ViewVolume where
  ns : String
  left_fov : Option MFloat
  right_fov : Option MFloat
  bottom_fov : Option MFloat
  top_fov : Option MFloat
  near : Option MFloat
deriving DecidableEq

/-- `ViewVolume.__bool__`: truthy iff all five fields are non-None. -/
def ViewVolume.toBool (v : ViewVolume) : Bool :=
  (v.left_fov ≠ none) && (v.right_fov ≠ none) && (v.bottom_fov ≠ none)
    && (v.top_fov ≠ none) && (v.near ≠ none)

/-- `ViewVolume.etree_element`: the five float writers in source order
`leftFov, rightFov, bottomFov, topFov, near`. -/
def ViewVolume.etree_element (v : ViewVolume) : Elem :=
  let e := Elem.mk (v.ns ++ "ViewVolume") none []
  let e := float_subelement v.ns v.left_fov "leftFov" e
  let e := float_subelement v.ns v.right_fov "rightFov" e
  let e := float_subelement v.ns v.bottom_fov "bottomFov" e
  let e := float_subelement v.ns v.top_fov "topFov" e
  let e := float_subelement v.ns v.near "near" e
  e

/-- `ViewVolume._get_kwargs` followed by the constructor: the five
float readers (the source reads `near` twice; the second, identical
result is the one kept by `dict.update`). -/
def ViewVolume.from_element (ns : String) (strict : Bool) (element : Elem)
    : Except KmlError ViewVolume := do
  let lf ← subelement_float_kwarg element ns "leftFov" strict
  let rf ← subelement_float_kwarg element ns "rightFov" strict
  let bf ← subelement_float_kwarg element ns "bottomFov" strict
  let tf ← subelement_float_kwarg element ns "topFov" strict
  let _ ← subelement_float_kwarg element ns "near" strict
  let nr ← subelement_float_kwarg element ns "near" strict
  pure ⟨ns, lf, rf, bf, tf, nr⟩

/-- The `ImagePyramid` record (`overlays.ImagePyramid`): three optional
integers and an optional grid origin. -/
structure ImagePyramid where
  ns : String
  tile_size : Option Int
  max_width : Option Int
  max_height : Option Int
  grid_origin : Option GridOrigin
deriving DecidableEq

/-- `ImagePyramid.__bool__`: truthy iff all four fields are non-None. -/
def ImagePyramid.toBool (p : ImagePyramid) : Bool :=
  (p.tile_size ≠ none) && (p.max_width ≠ none) && (p.max_height ≠ none)
    && (p.grid_origin ≠ none)

/-- `ImagePyramid.etree_element`: writers in source order
`tileSize, maxWidth, maxHeight, gridOrigin`. -/
def ImagePyramid.etree_element (p : ImagePyramid) : Elem :=
  let e := Elem.mk (p.ns ++ "ImagePyramid") none []
  let e := int_subelement p.ns p.tile_size "tileSize" e
  let e := int_subelement p.ns p.max_width "maxWidth" e
  let e := int_subelement p.ns p.max_height "maxHeight" e
  let e := enum_subelement GridOrigin.value p.ns p.grid_origin "gridOrigin" e
  e

/-- `ImagePyramid._get_kwargs` followed by the constructor. -/
def ImagePyramid.from_element (ns : String) (strict : Bool) (element : Elem)
    : Except KmlError ImagePyramid := do
  let ts ← subelement_int_kwarg element ns "tileSize" strict
  let mw ← subelement_int_kwarg element ns "maxWidth" strict
  let mh ← subelement_int_kwarg element ns "maxHeight" strict
  let go ← subelement_enum_kwarg GridOrigin.fromToken element ns "gridOrigin" strict
  pure ⟨ns, ts, mw, mh, go⟩

/-- The `LatLonBox` record (`overlays.LatLonBox`): four bounds and an
optional rotation, all optional floats. -/
structure LatLonBox where
  ns : String
  north : Option MFloat
  south : Option MFloat
  east : Option MFloat
  west : Option MFloat
  rotation : Option MFloat
deriving DecidableEq

/-- `LatLonBox.__bool__`: truthy iff north, south, east and west are
all non-None (rotation does not participate). -/
def LatLonBox.toBool (b : LatLonBox) : Bool :=
  (b.north ≠ none) && (b.south ≠ none) && (b.east ≠ none) && (b.west ≠ none)

/-- `LatLonBox.etree_element`: writers in source order
`north, south, east, west, rotation`. -/
def LatLonBox.etree_element (b : LatLonBox) : Elem :=
  let e := Elem.mk (b.ns ++ "LatLonBox") none []
  let e := float_subelement b.ns b.north "north" e
  let e := float_subelement b.ns b.south "south" e
  let e := float_subelement b.ns b.east "east" e
  let e := float_subelement b.ns b.west "west" e
  let e := float_subelement b.ns b.rotation "rotation" e
  e

/-- `LatLonBox._get_kwargs` followed by the constructor. -/
def LatLonBox.from_element (ns : String) (strict : Bool) (element : Elem)
    : Except KmlError LatLonBox := do
  let n ← subelement_float_kwarg element ns "north" strict
  let s ← subelement_float_kwarg element ns "south" strict
  let e ← subelement_float_kwarg element ns "east" strict
  let w ← subelement_float_kwarg element ns "west" strict
  let r ← subelement_float_kwarg element ns "rotation" strict
  pure ⟨ns, n, s, e, w, r⟩

/-- The `PhotoOverlay` entity (`overlays.PhotoOverlay`), restricted to
the Overlay-family fields whose codecs are among the provided sources:
`color` and `draw_order` from `_Overlay`, plus `rotation`,
`view_volume`, `image_pyramid` and `shape`.  The `icon` (`Icon`) and
`point` (geometry `Point`) nested fields and the inherited `_Feature`
attributes are modelled as absent. -/
structure PhotoOverlay where
  ns : String
  color : Option String
  draw_order : Option Int
  rotation : Option MFloat
  view_volume : Option ViewVolume
  image_pyramid : Option ImagePyramid
  shape : Option Shape
deriving DecidableEq

/-- `PhotoOverlay.etree_element`: the `_Overlay` writers (`color`,
`drawOrder`) followed by `rotation`, `view_volume`, `image_pyramid`,
`shape`, in source order. -/
def PhotoOverlay.etree_element (p : PhotoOverlay) : Elem :=
  let e := Elem.mk (p.ns ++ "PhotoOverlay") none []
  let e := text_subelement p.ns p.color "color" e
  let e := int_subelement p.ns p.draw_order "drawOrder" e
  let e := float_subelement p.ns p.rotation "rotation" e
  let e := xml_subelement ViewVolume.toBool ViewVolume.etree_element p.view_volume e
  let e := xml_subelement ImagePyramid.toBool ImagePyramid.etree_element p.image_pyramid e
  let e := enum_subelement Shape.value p.ns p.shape "shape" e
  e

/-- `PhotoOverlay._get_kwargs` followed by the constructor, reader
order as in the source (superclass first). -/
def PhotoOverlay.from_element (ns : String) (strict : Bool) (element : Elem)
    : Except KmlError PhotoOverlay := do
  let color := subelement_text_kwarg element ns "color" strict
  let dro ← subelement_int_kwarg element ns "drawOrder" strict
  let rot ← subelement_float_kwarg element ns "rotation" strict
  let vv ← xml_subelement_kwarg "ViewVolume" (ViewVolume.from_element ns strict) element ns
  let ip ← xml_subelement_kwarg "ImagePyramid" (ImagePyramid.from_element ns strict) element ns
  let sh ← subelement_enum_kwarg Shape.fromToken element ns "shape" strict
  pure ⟨ns, color, dro, rot, vv, ip, sh⟩

/-- The `GroundOverlay` entity (`overlays.GroundOverlay`), restricted
as `PhotoOverlay` is: `color` and `draw_order` from `_Overlay`, plus
`altitude`, `altitude_mode` and `lat_lon_box`.  The constructor stores
`altitude_mode` by plain assignment, exactly as
`GroundOverlay.__init__` does. -/
structure GroundOverlay where
  ns : String
  color : Option String
  draw_order : Option Int
  altitude : Option MFloat
  altitude_mode : Option AltitudeMode
  lat_lon_box : Option LatLonBox
deriving DecidableEq

/-- `GroundOverlay.etree_element`: the `_Overlay` writers followed by
`altitude`, `altitudeMode`, `LatLonBox`, in source order. -/
def GroundOverlay.etree_element (g : GroundOverlay) : Elem :=
  let e := Elem.mk (g.ns ++ "GroundOverlay") none []
  let e := text_subelement g.ns g.color "color" e
  let e := int_subelement g.ns g.draw_order "drawOrder" e
  let e := float_subelement g.ns g.altitude "altitude" e
  let e := enum_subelement AltitudeMode.value g.ns g.altitude_mode "altitudeMode" e
  let e := xml_subelement LatLonBox.toBool LatLonBox.etree_element g.lat_lon_box e
  e

/-- `GroundOverlay._get_kwargs` followed by the constructor, reader
order as in the source (superclass first). -/
def GroundOverlay.from_element (ns : String) (strict : Bool) (element : Elem)
    : Except KmlError GroundOverlay := do
  let color := subelement_text_kwarg element ns "color" strict
  let dro ← subelement_int_kwarg element ns "drawOrder" strict
  let alt ← subelement_float_kwarg element ns "altitude" strict
  let am ← subelement_enum_kwarg AltitudeMode.fromToken element ns "altitudeMode" strict
  let llb ← xml_subelement_kwarg "LatLonBox" (LatLonBox.from_element ns strict) element ns
  pure ⟨ns, color, dro, alt, am, llb⟩

/-- Modelled from the spec: the convenience operation
`GroundOverlay.SetLatLonBox(north, south, east, west, rotation=0)` (not
among the provided sources) — validate `north, south ∈ [-90, 90]` and
`east, west, rotation ∈ [-180, 180]`, fail with a range-violation
error naming the offending field before assigning any bound
(all-or-nothing: the overlay is returned unchanged inside no `error`
result), and on success store all five values in a fresh `LatLonBox`. -/
def GroundOverlay.lat_lon_box_set (g : GroundOverlay)
    (north south east west rotation : MFloat)
    : Except KmlError GroundOverlay :=
  if ¬(-90 ≤ north ∧ north ≤ 90) then .error (.validation "north")
  else if ¬(-90 ≤ south ∧ south ≤ 90) then .error (.validation "south")
  else if ¬(-180 ≤ east ∧ east ≤ 180) then .error (.validation "east")
  else if ¬(-180 ≤ west ∧ west ≤ 180) then .error (.validation "west")
  else if ¬(-180 ≤ rotation ∧ rotation ≤ 180) then .error (.validation "rotation")
  else
    .ok { g with
          lat_lon_box := some ⟨g.ns, some north, some south, some east,
                               some west, some rotation⟩ }

/-!
Lemmas about the modelled Python primitives: printing an integer in
decimal and parsing it back is the identity, the printed form has no
surrounding whitespace, and stripping leaves it unchanged.
-/

/-- Accessor computation for `Elem.tag`. -/
@[simp]
theorem Elem.tag_mk (t : String) (x : Option String) (cs : List Elem) :
    (Elem.mk t x cs).tag = t := rfl

/-- Accessor computation for `Elem.text`. -/
@[simp]
theorem Elem.text_mk (t : String) (x : Option String) (cs : List Elem) :
    (Elem.mk t x cs).text = x := rfl

/-- Accessor computation for `Elem.children`. -/
@[simp]
theorem Elem.children_mk (t : String) (x : Option String) (cs : List Elem) :
    (Elem.mk t x cs).children = cs := rfl

/-- Computation rule for `Elem.withChild`. -/
@[simp]
theorem Elem.withChild_mk (t : String) (x : Option String) (cs : List Elem)
    (c : Elem) : (Elem.mk t x cs).withChild c = .mk t x (cs ++ [c]) := rfl

/-- Computation rule for `Elem.findChild`. -/
theorem Elem.findChild_mk (t : String) (x : Option String) (cs : List Elem)
    (s : String) :
    (Elem.mk t x cs).findChild s = cs.find? (fun c => c.tag == s) := rfl

/-- A common namespace prefix cancels in qualified-tag comparison. -/
@[simp]
theorem beq_append_left (ns a b : String) : (ns ++ a == ns ++ b) = (a == b) := by
  rcases eq_or_ne a b with h | h
  · simp [h]
  · have hne : ns ++ a ≠ ns ++ b := by
      intro hcontra
      apply h
      have : (ns ++ a).data = (ns ++ b).data := by rw [hcontra]
      rw [String.data_append, String.data_append] at this
      have := List.append_cancel_left this
      cases a; cases b; cases this; rfl
    simp [hne, h]

/-- Digit characters are never the sign characters. -/
theorem digitCh_ne_sign (d : Nat) : digitCh d ≠ '-' ∧ digitCh d ≠ '+' := by
  unfold digitCh
  split <;> exact ⟨by decide, by decide⟩

/-- Digit characters are not whitespace. -/
theorem pySpace_digitCh (d : Nat) : pySpace (digitCh d) = false := by
  unfold digitCh
  split <;> decide

/-- Value of the digit character of a digit below ten. -/
theorem digitVal_digitCh {d : Nat} (h : d < 10) :
    digitVal (digitCh d) = some d := by
  interval_cases d <;> decide

/-- Evaluation distributes over appending digit lists. -/
theorem digitsValGo_append (acc : Nat) (l1 l2 : List Char) :
    digitsValGo acc (l1 ++ l2)
      = match digitsValGo acc l1 with
        | some a => digitsValGo a l2
        | none => none := by
  induction l1 generalizing acc with
  | nil => simp [digitsValGo]
  | cons c cs ih =>
    simp only [List.cons_append, digitsValGo]
    cases digitVal c with
    | none => simp
    | some d => simp [ih]

/-- Every character emitted by `natDigitsGo` is a digit character. -/
theorem natDigitsGo_mem (fuel n : Nat) :
    ∀ c ∈ natDigitsGo fuel n, ∃ d, d < 10 ∧ c = digitCh d := by
  induction fuel generalizing n with
  | zero => intro c hc; simp [natDigitsGo] at hc
  | succ f ih =>
    intro c hc
    match n with
    | 0 => simp [natDigitsGo] at hc
    | m + 1 =>
      simp only [natDigitsGo, List.mem_cons] at hc
      rcases hc with h | h
      · exact ⟨(m + 1) % 10, Nat.mod_lt _ (by decide), h⟩
      · exact ih _ c h

/-- Big-endian evaluation of the reversed digit list, with an
accumulator, recovers the number. -/
theorem digitsValGo_natDigitsGo (fuel : Nat) :
    ∀ n acc, n ≤ fuel →
      digitsValGo acc (natDigitsGo fuel n).reverse
        = some (acc * 10 ^ (natDigitsGo fuel n).length + n) := by
  induction fuel with
  | zero =>
    intro n acc h
    interval_cases n
    simp [natDigitsGo, digitsValGo]
  | succ f ih =>
    intro n acc h
    match n with
    | 0 => simp [natDigitsGo, digitsValGo]
    | m + 1 =>
      have hle : (m + 1) / 10 ≤ f := by
        have h1 : (m + 1) / 10 < m + 1 :=
          Nat.div_lt_self (Nat.succ_pos m) (by decide)
        omega
      simp only [natDigitsGo, List.reverse_cons]
      rw [digitsValGo_append, ih _ acc hle]
      have hlt : (m + 1) % 10 < 10 := Nat.mod_lt (m + 1) (by decide)
      simp only [digitsValGo, digitVal_digitCh hlt]
      have hdm := Nat.div_add_mod (m + 1) 10
      simp only [List.length_append, List.length_reverse, List.length_cons,
        List.length_nil]
      rw [Option.some.injEq, pow_succ]
      ring_nf
      omega

/-- Parsing the decimal digits of a positive number yields the number. -/
theorem digitsVal_natDigits {n : Nat} (h : n ≠ 0) :
    digitsVal (natDigits n).reverse = some n := by
  have hlen : natDigits n ≠ [] := by
    unfold natDigits natDigitsGo
    match hfuel : n, h with
    | m + 1, _ =>
      match m with
      | 0 => simp
      | k + 1 => simp
  have := digitsValGo_natDigitsGo n n 0 (Nat.le_refl n)
  unfold natDigits at *
  unfold digitsVal
  match hrev : (natDigitsGo n n).reverse with
  | [] =>
    exact absurd (List.reverse_eq_nil_iff.mp hrev) hlen
  | c :: cs =>
    rw [hrev] at this
    simpa using this

/-- The character data of `natToStr`. -/
theorem natToStr_data (n : Nat) :
    (natToStr n).data = if n = 0 then ['0'] else (natDigits n).reverse := by
  unfold natToStr
  split <;> rfl

/-- Every character of `natToStr` is a digit character. -/
theorem natToStr_mem (n : Nat) :
    ∀ c ∈ (natToStr n).data, ∃ d, d < 10 ∧ c = digitCh d := by
  intro c hc
  rw [natToStr_data] at hc
  split at hc
  · simp at hc
    exact ⟨0, by decide, by simp [hc, digitCh]⟩
  · rw [List.mem_reverse] at hc
    exact natDigitsGo_mem n n c hc

/-- Parsing the digit data of `natToStr` recovers the number. -/
theorem digitsVal_natToStr (n : Nat) : digitsVal (natToStr n).data = some n := by
  rw [natToStr_data]
  split
  · subst n
    decide
  · exact digitsVal_natDigits ‹n ≠ 0›

/-- The data of `natToStr` is non-empty. -/
theorem natToStr_data_ne_nil (n : Nat) : (natToStr n).data ≠ [] := by
  intro h
  have := digitsVal_natToStr n
  rw [h] at this
  simp [digitsVal] at this

/-- Parsing the printed form of an integer recovers the integer:
the model of `int(str(i))` is the identity. -/
theorem pyIntParse_intToStr (i : Int) : pyIntParse (intToStr i) = some i := by
  unfold intToStr
  split
  · rename_i hneg
    have hdata : ("-" ++ natToStr (-i).toNat).data
        = '-' :: (natToStr (-i).toNat).data := by
      rw [String.data_append]
      rfl
    unfold pyIntParse
    rw [hdata]
    simp [digitsVal_natToStr]
    omega
  · rename_i hnneg
    unfold pyIntParse
    match hd : (natToStr i.toNat).data with
    | [] => exact absurd hd (natToStr_data_ne_nil i.toNat)
    | c :: rest =>
      obtain ⟨d, _, hcd⟩ := natToStr_mem i.toNat c (by rw [hd]; exact List.mem_cons_self c rest)
      obtain ⟨hm, hp⟩ := digitCh_ne_sign d
      subst hcd
      have hv := digitsVal_natToStr i.toNat
      rw [hd] at hv
      simp [hm, hp, hv]
      omega

/-- Dropping leading characters that fail the predicate is a no-op. -/
theorem dropWhile_eq_self_of_forall {p : Char → Bool} {l : List Char}
    (h : ∀ c ∈ l, p c = false) : l.dropWhile p = l := by
  cases l with
  | nil => rfl
  | cons c cs =>
    rw [List.dropWhile_cons, h c (List.mem_cons_self c cs)]
    simp

/-- Stripping a string without whitespace characters is a no-op. -/
theorem pyStrip_of_no_space {s : String}
    (h : ∀ c ∈ s.data, pySpace c = false) : pyStrip s = s := by
  unfold pyStrip
  rw [dropWhile_eq_self_of_forall h,
    dropWhile_eq_self_of_forall (fun c hc => h c (List.mem_reverse.mp hc)),
    List.reverse_reverse]

/-- The characters of a printed integer: a possible minus sign followed
by digit characters. -/
theorem intToStr_mem (i : Int) :
    ∀ c ∈ (intToStr i).data, c = '-' ∨ ∃ d, d < 10 ∧ c = digitCh d := by
  intro c hc
  unfold intToStr at hc
  split at hc
  · rw [String.data_append] at hc
    rcases List.mem_append.mp hc with h | h
    · left
      simpa using h
    · right
      exact natToStr_mem _ c h
  · right
    exact natToStr_mem _ c hc

/-- Stripping the printed form of an integer is a no-op. -/
theorem pyStrip_intToStr (i : Int) : pyStrip (intToStr i) = intToStr i := by
  apply pyStrip_of_no_space
  intro c hc
  rcases intToStr_mem i c hc with h | ⟨d, _, h⟩
  · subst h
    decide
  · subst h
    exact pySpace_digitCh d

/-- The printed form of an integer is non-empty. -/
theorem intToStr_ne_empty (i : Int) : intToStr i ≠ "" := by
  intro h
  have : (intToStr i).data = [] := by rw [h]
  unfold intToStr at this
  split at this
  · rw [String.data_append] at this
    simp at this
  · exact natToStr_data_ne_nil _ this

/-- The printed form of an integer never equals the empty string
(iff form for rewriting). -/
@[simp]
theorem intToStr_eq_empty_iff (i : Int) : intToStr i = "" ↔ False :=
  iff_false_intro (intToStr_ne_empty i)

/-- Stripping the printed integer is a no-op (simp form). -/
@[simp]
theorem pyStrip_intToStr_simp (i : Int) : pyStrip (intToStr i) = intToStr i :=
  pyStrip_intToStr i

/-- Parsing the printed integer (simp form). -/
@[simp]
theorem pyIntParse_intToStr_simp (i : Int) : pyIntParse (intToStr i) = some i :=
  pyIntParse_intToStr i

/-- Canonical altitude-mode tokens survive a strip. -/
@[simp]
theorem pyStrip_altitudeMode (m : AltitudeMode) :
    pyStrip m.value = m.value := by
  cases m <;> decide

/-- Altitude-mode tokens are non-empty. -/
@[simp]
theorem altitudeMode_value_ne_empty (m : AltitudeMode) : m.value = "" ↔ False := by
  cases m <;> simp [AltitudeMode.value]

/-- Token round trip for altitude modes. -/
@[simp]
theorem altitudeMode_fromToken_value (m : AltitudeMode) :
    AltitudeMode.fromToken m.value = some m := by
  cases m <;> decide

/-- Canonical grid-origin tokens survive a strip. -/
@[simp]
theorem pyStrip_gridOrigin (g : GridOrigin) : pyStrip g.value = g.value := by
  cases g <;> decide

/-- Grid-origin tokens are non-empty. -/
@[simp]
theorem gridOrigin_value_ne_empty (g : GridOrigin) : g.value = "" ↔ False := by
  cases g <;> simp [GridOrigin.value]

/-- Token round trip for grid origins. -/
@[simp]
theorem gridOrigin_fromToken_value (g : GridOrigin) :
    GridOrigin.fromToken g.value = some g := by
  cases g <;> decide

/-- Canonical shape tokens survive a strip. -/
@[simp]
theorem pyStrip_shape (s : Shape) : pyStrip s.value = s.value := by
  cases s <;> decide

/-- Shape tokens are non-empty. -/
@[simp]
theorem shape_value_ne_empty (s : Shape) : s.value = "" ↔ False := by
  cases s <;> simp [Shape.value]

/-- Token round trip for shapes. -/
@[simp]
theorem shape_fromToken_value (s : Shape) :
    Shape.fromToken s.value = some s := by
  cases s <;> decide

/-- Bind on a successful `Except` computes. -/
@[simp]
theorem except_bind_ok {ε α β : Type} (a : α) (f : α → Except ε β) :
    (Except.ok a : Except ε α) >>= f = f a := rfl

/-- Bind on a failed `Except` computes. -/
@[simp]
theorem except_bind_error {ε α β : Type} (e : ε) (f : α → Except ε β) :
    (Except.error e : Except ε α) >>= f = (.error e : Except ε β) := rfl

/-- Pure on `Except` is `ok`. -/
@[simp]
theorem except_pure_eq_ok {ε α : Type} (a : α) :
    (pure a : Except ε α) = .ok a := rfl

/-!
Roundtrippable attribute values: the side conditions under which no
documented lossy default applies.  A text value must be truthy
(non-empty) and strip-invariant; a numeric value must be truthy
(nonzero), since a falsy value is omitted on write (the documented
omit-empty rule); a nested record must satisfy its all-or-nothing
presence rule with truthy constituents and share the parent's
namespace (the spec's namespace-coherence invariant).
-/

/-- An optional text field round-trips: absent, or non-empty and
unchanged by stripping. -/
def textRT : Option String → Bool
  | none => true
  | some s => (s != "") && (pyStrip s == s)

/-- An optional numeric field round-trips: absent or nonzero. -/
def numRT : Option Int → Bool
  | none => true
  | some n => n != 0

/-- A required numeric constituent of a nested record: present and
nonzero. -/
def numSetTruthy : Option Int → Bool
  | none => false
  | some n => n != 0

/-- A `ViewVolume` whose five fields are all present and truthy. -/
def ViewVolume.allTruthy (v : ViewVolume) : Bool :=
  numSetTruthy v.left_fov && numSetTruthy v.right_fov
    && numSetTruthy v.bottom_fov && numSetTruthy v.top_fov
    && numSetTruthy v.near

/-- An `ImagePyramid` whose four fields are all present, the numeric
ones truthy. -/
def ImagePyramid.allTruthy (p : ImagePyramid) : Bool :=
  numSetTruthy p.tile_size && numSetTruthy p.max_width
    && numSetTruthy p.max_height && (p.grid_origin ≠ none)

/-- A `LatLonBox` whose four bounds are present and truthy and whose
optional rotation is absent or truthy. -/
def LatLonBox.allTruthy (b : LatLonBox) : Bool :=
  numSetTruthy b.north && numSetTruthy b.south && numSetTruthy b.east
    && numSetTruthy b.west && numRT b.rotation

/-- Serializing and re-parsing a truthy `ViewVolume` under its own
namespace restores it, in both parsing modes. -/
theorem viewVolume_roundtrip (v : ViewVolume) (strict : Bool)
    (h : v.allTruthy = true) :
    ViewVolume.from_element v.ns strict v.etree_element = .ok v := by
  rcases v with ⟨ns, lf, rf, bf, tf, nr⟩
  rcases lf with _ | lf <;> rcases rf with _ | rf <;> rcases bf with _ | bf
    <;> rcases tf with _ | tf <;> rcases nr with _ | nr
    <;> simp [ViewVolume.allTruthy, numSetTruthy] at h
  obtain ⟨⟨⟨⟨hlf, hrf⟩, hbf⟩, htf⟩, hnr⟩ := h
  simp [ViewVolume.from_element, ViewVolume.etree_element, float_subelement,
    subelement_float_kwarg, Elem.findChild, List.find?, hlf, hrf, hbf, htf, hnr]

/-- Serializing and re-parsing a truthy `ImagePyramid` under its own
namespace restores it, in both parsing modes. -/
theorem imagePyramid_roundtrip (p : ImagePyramid) (strict : Bool)
    (h : p.allTruthy = true) :
    ImagePyramid.from_element p.ns strict p.etree_element = .ok p := by
  rcases p with ⟨ns, ts, mw, mh, go⟩
  rcases ts with _ | ts <;> rcases mw with _ | mw <;> rcases mh with _ | mh
    <;> rcases go with _ | go
    <;> simp [ImagePyramid.allTruthy, numSetTruthy] at h
  obtain ⟨⟨hts, hmw⟩, hmh⟩ := h
  simp [ImagePyramid.from_element, ImagePyramid.etree_element, int_subelement,
    enum_subelement, subelement_int_kwarg, subelement_enum_kwarg,
    Elem.findChild, List.find?, hts, hmw, hmh]

/-- Serializing and re-parsing a truthy `LatLonBox` under its own
namespace restores it, in both parsing modes. -/
theorem latLonBox_roundtrip (b : LatLonBox) (strict : Bool)
    (h : b.allTruthy = true) :
    LatLonBox.from_element b.ns strict b.etree_element = .ok b := by
  rcases b with ⟨ns, n, s, e, w, r⟩
  rcases n with _ | n <;> rcases s with _ | s <;> rcases e with _ | e
    <;> rcases w with _ | w <;> rcases r with _ | r
    <;> simp [LatLonBox.allTruthy, numSetTruthy, numRT] at h
  · obtain ⟨⟨⟨hn, hs⟩, he⟩, hw⟩ := h
    simp [LatLonBox.from_element, LatLonBox.etree_element, float_subelement,
      subelement_float_kwarg, Elem.findChild, List.find?, hn, hs, he, hw]
  · obtain ⟨⟨⟨⟨hn, hs⟩, he⟩, hw⟩, hr⟩ := h
    simp [LatLonBox.from_element, LatLonBox.etree_element, float_subelement,
      subelement_float_kwarg, Elem.findChild, List.find?, hn, hs, he, hw, hr]

/-- Writers do not change the element's tag: text writer. -/
@[simp]
theorem tag_simple_text_subelement (ns : String) (a : Option String)
    (nn : String) (e : Elem) : (simple_text_subelement ns a nn e).tag = e.tag := by
  rcases e with ⟨t, x, cs⟩
  rcases a with _ | s
  · rfl
  · simp only [simple_text_subelement]
    split <;> rfl

/-- Writers do not change the element's tag: overlay text writer. -/
@[simp]
theorem tag_text_subelement (ns : String) (a : Option String)
    (nn : String) (e : Elem) : (text_subelement ns a nn e).tag = e.tag :=
  tag_simple_text_subelement ns a nn e

/-- Writers do not change the element's tag: integer writer. -/
@[simp]
theorem tag_int_subelement (ns : String) (a : Option Int)
    (nn : String) (e : Elem) : (int_subelement ns a nn e).tag = e.tag := by
  rcases e with ⟨t, x, cs⟩
  rcases a with _ | n
  · rfl
  · simp only [int_subelement]
    split <;> rfl

/-- Writers do not change the element's tag: float writer. -/
@[simp]
theorem tag_float_subelement (ns : String) (a : Option MFloat)
    (nn : String) (e : Elem) : (float_subelement ns a nn e).tag = e.tag := by
  rcases e with ⟨t, x, cs⟩
  rcases a with _ | n
  · rfl
  · simp only [float_subelement]
    split <;> rfl

/-- Writers do not change the element's tag: enum writer. -/
@[simp]
theorem tag_enum_subelement {α : Type} (value : α → String) (ns : String)
    (a : Option α) (nn : String) (e : Elem) :
    (enum_subelement value ns a nn e).tag = e.tag := by
  rcases e with ⟨t, x, cs⟩
  rcases a with _ | v <;> rfl

/-- Writers do not change the element's tag: nested writer. -/
@[simp]
theorem tag_xml_subelement {α : Type} (truthy : α → Bool) (ser : α → Elem)
    (a : Option α) (e : Elem) : (xml_subelement truthy ser a e).tag = e.tag := by
  rcases e with ⟨t, x, cs⟩
  rcases a with _ | v
  · rfl
  · simp only [xml_subelement]
    split <;> rfl

/-- The tag of a serialized `ViewVolume`. -/
@[simp]
theorem viewVolume_etree_tag (v : ViewVolume) :
    v.etree_element.tag = v.ns ++ "ViewVolume" := by
  simp [ViewVolume.etree_element]

/-- The tag of a serialized `ImagePyramid`. -/
@[simp]
theorem imagePyramid_etree_tag (p : ImagePyramid) :
    p.etree_element.tag = p.ns ++ "ImagePyramid" := by
  simp [ImagePyramid.etree_element]

/-- The tag of a serialized `LatLonBox`. -/
@[simp]
theorem latLonBox_etree_tag (b : LatLonBox) :
    b.etree_element.tag = b.ns ++ "LatLonBox" := by
  simp [LatLonBox.etree_element]

/-- Mapping over a successful `Except` computes. -/
@[simp]
theorem except_map_ok {ε α β : Type} (f : α → β) (a : α) :
    (Except.ok a : Except ε α).map f = .ok (f a) := rfl

/-- `ViewVolume` round trip, stated on the parent's namespace. -/
theorem viewVolume_roundtrip_ns (ns : String) (v : ViewVolume) (strict : Bool)
    (hns : v.ns = ns) (h : v.allTruthy = true) :
    ViewVolume.from_element ns strict v.etree_element = .ok v := by
  subst hns
  exact viewVolume_roundtrip v strict h

/-- `ImagePyramid` round trip, stated on the parent's namespace. -/
theorem imagePyramid_roundtrip_ns (ns : String) (p : ImagePyramid) (strict : Bool)
    (hns : p.ns = ns) (h : p.allTruthy = true) :
    ImagePyramid.from_element ns strict p.etree_element = .ok p := by
  subst hns
  exact imagePyramid_roundtrip p strict h

/-- `LatLonBox` round trip, stated on the parent's namespace. -/
theorem latLonBox_roundtrip_ns (ns : String) (b : LatLonBox) (strict : Bool)
    (hns : b.ns = ns) (h : b.allTruthy = true) :
    LatLonBox.from_element ns strict b.etree_element = .ok b := by
  subst hns
  exact latLonBox_roundtrip b strict h

/-- A nested optional field round-trips: absent, or truthy with the
parent's namespace. -/
def nestedRT {α : Type} (truthy : α → Bool) (nsOf : α → String)
    (pns : String) : Option α → Bool
  | none => true
  | some x => truthy x && (nsOf x == pns)

/-- A fully truthy `ViewVolume` is present per `__bool__`. -/
theorem viewVolumeToBool_of_allTruthy {v : ViewVolume}
    (h : v.allTruthy = true) : v.toBool = true := by
  rcases v with ⟨ns, lf, rf, bf, tf, nr⟩
  rcases lf with _ | lf <;> rcases rf with _ | rf <;> rcases bf with _ | bf
    <;> rcases tf with _ | tf <;> rcases nr with _ | nr
    <;> simp_all [ViewVolume.allTruthy, ViewVolume.toBool, numSetTruthy]

/-- A fully truthy `ImagePyramid` is present per `__bool__`. -/
theorem imagePyramidToBool_of_allTruthy {p : ImagePyramid}
    (h : p.allTruthy = true) : p.toBool = true := by
  rcases p with ⟨ns, ts, mw, mh, go⟩
  rcases ts with _ | ts <;> rcases mw with _ | mw <;> rcases mh with _ | mh
    <;> rcases go with _ | go
    <;> simp_all [ImagePyramid.allTruthy, ImagePyramid.toBool, numSetTruthy]

/-- A fully truthy `LatLonBox` is present per `__bool__`. -/
theorem latLonBoxToBool_of_allTruthy {b : LatLonBox}
    (h : b.allTruthy = true) : b.toBool = true := by
  rcases b with ⟨ns, n, s, e, w, r⟩
  rcases n with _ | n <;> rcases s with _ | s <;> rcases e with _ | e
    <;> rcases w with _ | w
    <;> simp_all [LatLonBox.allTruthy, LatLonBox.toBool, numSetTruthy]

/-- A `PhotoOverlay` in which no documented lossy default applies. -/
def PhotoOverlay.roundTrippable (p : PhotoOverlay) : Bool :=
  textRT p.color && numRT p.draw_order && numRT p.rotation
    && nestedRT ViewVolume.allTruthy ViewVolume.ns p.ns p.view_volume
    && nestedRT ImagePyramid.allTruthy ImagePyramid.ns p.ns p.image_pyramid

/-- A `GroundOverlay` in which no documented lossy default applies. -/
def GroundOverlay.roundTrippable (g : GroundOverlay) : Bool :=
  textRT g.color && numRT g.draw_order && numRT g.altitude
    && nestedRT LatLonBox.allTruthy LatLonBox.ns g.ns g.lat_lon_box

/-- Serializing and re-parsing a roundtrippable `PhotoOverlay` under
its own namespace restores it, in both parsing modes. -/
theorem photoOverlay_roundtrip (p : PhotoOverlay) (strict : Bool)
    (h : p.roundTrippable = true) :
    PhotoOverlay.from_element p.ns strict p.etree_element = .ok p := by
  rcases p with ⟨ns, color, dro, rot, vv, ip, sh⟩
  rcases color with _ | color <;> rcases dro with _ | dro
    <;> rcases rot with _ | rot <;> rcases vv with _ | vv
    <;> rcases ip with _ | ip <;> rcases sh with _ | sh
    <;> simp_all [PhotoOverlay.roundTrippable, PhotoOverlay.from_element,
      PhotoOverlay.etree_element, textRT, numRT, nestedRT,
      text_subelement, simple_text_subelement, int_subelement,
      float_subelement, enum_subelement, xml_subelement,
      subelement_text_kwarg, subelement_int_kwarg, subelement_float_kwarg,
      subelement_enum_kwarg, xml_subelement_kwarg,
      viewVolumeToBool_of_allTruthy, imagePyramidToBool_of_allTruthy,
      viewVolume_roundtrip_ns, imagePyramid_roundtrip_ns,
      Elem.findChild, List.find?]

/-- Serializing and re-parsing a roundtrippable `GroundOverlay` under
its own namespace restores it, in both parsing modes. -/
theorem groundOverlay_roundtrip (g : GroundOverlay) (strict : Bool)
    (h : g.roundTrippable = true) :
    GroundOverlay.from_element g.ns strict g.etree_element = .ok g := by
  rcases g with ⟨ns, color, dro, alt, am, llb⟩
  rcases color with _ | color <;> rcases dro with _ | dro
    <;> rcases alt with _ | alt <;> rcases am with _ | am
    <;> rcases llb with _ | llb
    <;> simp_all [GroundOverlay.roundTrippable, GroundOverlay.from_element,
      GroundOverlay.etree_element, textRT, numRT, nestedRT,
      text_subelement, simple_text_subelement, int_subelement,
      float_subelement, enum_subelement, xml_subelement,
      subelement_text_kwarg, subelement_int_kwarg, subelement_float_kwarg,
      subelement_enum_kwarg, xml_subelement_kwarg,
      latLonBoxToBool_of_allTruthy, latLonBox_roundtrip_ns,
      Elem.findChild, List.find?]

/-- C1: for every Overlay-family entity, deserializing the element
produced by serializing it (reading `_get_kwargs` off the result of
`etree_element` and passing the mapping to the constructor) yields an
entity structurally equal to the original, in both parsing modes, for
every combination of attribute values in which no documented lossy
default applies (each set field truthy and strip-invariant, nested
records fully truthy under the parent's namespace). -/
theorem claim_C1_overlay_roundtrip :
    (∀ (p : PhotoOverlay) (strict : Bool), p.roundTrippable = true →
      PhotoOverlay.from_element p.ns strict p.etree_element = .ok p)
    ∧ (∀ (g : GroundOverlay) (strict : Bool), g.roundTrippable = true →
      GroundOverlay.from_element g.ns strict g.etree_element = .ok g) :=
  ⟨photoOverlay_roundtrip, groundOverlay_roundtrip⟩

/-- A concrete roundtrippable `PhotoOverlay`. -/
def photoW : PhotoOverlay :=
  ⟨"", some "ff0000ff", some 3, some 1,
    some ⟨"", some 1, some 2, some 3, some 4, some 5⟩,
    some ⟨"", some 256, some 1024, some 512, some .lowerLeft⟩,
    some .sphere⟩

/-- A concrete roundtrippable `GroundOverlay`. -/
def groundW : GroundOverlay :=
  ⟨"k", some "ff0000ff", some 3, some 100, some .absolute,
    some ⟨"k", some 10, some 1, some 10, some 1, some 5⟩⟩

/-- C1 witness: the round trip evaluated at concrete overlays. -/
theorem claim_C1_overlay_roundtrip_witness :
    (photoW.roundTrippable = true
      ∧ PhotoOverlay.from_element photoW.ns true photoW.etree_element = .ok photoW)
    ∧ (groundW.roundTrippable = true
      ∧ GroundOverlay.from_element groundW.ns false groundW.etree_element = .ok groundW) :=
  ⟨⟨by decide, claim_C1_overlay_roundtrip.1 photoW true (by decide)⟩,
   ⟨by decide, claim_C1_overlay_roundtrip.2 groundW false (by decide)⟩⟩

/-- C4: every compound nested record is truthy exactly when all of its
required constituent fields are non-None: `ViewVolume` iff
`left_fov, right_fov, bottom_fov, top_fov, near` are all set,
`ImagePyramid` iff `tile_size, max_width, max_height, grid_origin` are
all set, `LatLonBox` iff `north, south, east, west` are all set, with
`rotation` not affecting presence. -/
theorem claim_C4_all_or_nothing_presence :
    (∀ v : ViewVolume, v.toBool = true ↔
      (v.left_fov ≠ none ∧ v.right_fov ≠ none ∧ v.bottom_fov ≠ none
        ∧ v.top_fov ≠ none ∧ v.near ≠ none))
    ∧ (∀ p : ImagePyramid, p.toBool = true ↔
      (p.tile_size ≠ none ∧ p.max_width ≠ none ∧ p.max_height ≠ none
        ∧ p.grid_origin ≠ none))
    ∧ (∀ b : LatLonBox, b.toBool = true ↔
      (b.north ≠ none ∧ b.south ≠ none ∧ b.east ≠ none ∧ b.west ≠ none))
    ∧ (∀ (b : LatLonBox) (r : Option MFloat),
      ({ b with rotation := r } : LatLonBox).toBool = b.toBool) := by
  refine ⟨fun v => ?_, fun p => ?_, fun b => ?_, fun b r => ?_⟩
  · simp [ViewVolume.toBool, and_assoc]
  · simp [ImagePyramid.toBool, and_assoc]
  · simp [LatLonBox.toBool, and_assoc]
  · simp [LatLonBox.toBool]

/-- C4 witness: the presence rule evaluated at a concrete partially
filled box, whose truthiness ignores its rotation. -/
theorem claim_C4_all_or_nothing_presence_witness :
    (LatLonBox.toBool ⟨"", some 1, some 2, some 3, none, some 4⟩ = true ↔
      ((some 1 : Option MFloat) ≠ none ∧ (some 2 : Option MFloat) ≠ none
        ∧ (some 3 : Option MFloat) ≠ none ∧ (none : Option MFloat) ≠ none))
    ∧ LatLonBox.toBool ⟨"", some 1, some 2, some 3, some 5, none⟩
        = LatLonBox.toBool ⟨"", some 1, some 2, some 3, some 5, some 9⟩ :=
  ⟨claim_C4_all_or_nothing_presence.2.2.1 ⟨"", some 1, some 2, some 3, none, some 4⟩,
   claim_C4_all_or_nothing_presence.2.2.2
      ⟨"", some 1, some 2, some 3, some 5, some 9⟩ none⟩

/-- C2: each field-codec writer creates no subelement when the named
attribute is absent or falsy, and otherwise creates exactly one child
element — for the primitive writers one named `{ns}{node_name}` whose
text is the canonical string form of the value (text verbatim, boolean
`"1"`, integer and float the decimal string, enum the canonical token),
and for the nested writer the nested entity's own serialized element —
leaving the element's tag, text and the other children unchanged. -/
theorem claim_C2_writer_contract :
    ∀ (ns node_name : String) (e : Elem),
      (simple_text_subelement ns none node_name e = e
        ∧ simple_text_subelement ns (some "") node_name e = e
        ∧ ∀ s : String, s ≠ "" → simple_text_subelement ns (some s) node_name e
            = Elem.mk e.tag e.text (e.children ++ [Elem.mk (ns ++ node_name) (some s) []]))
      ∧ (bool_subelement ns none node_name e = e
        ∧ bool_subelement ns (some false) node_name e = e
        ∧ bool_subelement ns (some true) node_name e
            = Elem.mk e.tag e.text (e.children ++ [Elem.mk (ns ++ node_name) (some "1") []]))
      ∧ (int_subelement ns none node_name e = e
        ∧ int_subelement ns (some 0) node_name e = e
        ∧ ∀ n : Int, n ≠ 0 → int_subelement ns (some n) node_name e
            = Elem.mk e.tag e.text (e.children ++ [Elem.mk (ns ++ node_name) (some (intToStr n)) []]))
      ∧ (float_subelement ns none node_name e = e
        ∧ float_subelement ns (some 0) node_name e = e
        ∧ ∀ v : MFloat, v ≠ 0 → float_subelement ns (some v) node_name e
            = Elem.mk e.tag e.text (e.children ++ [Elem.mk (ns ++ node_name) (some (intToStr v)) []]))
      ∧ (∀ (α : Type) (value : α → String),
          enum_subelement value ns none node_name e = e
          ∧ ∀ m : α, enum_subelement value ns (some m) node_name e
              = Elem.mk e.tag e.text (e.children ++ [Elem.mk (ns ++ node_name) (some (value m)) []]))
      ∧ (∀ (α : Type) (truthy : α → Bool) (ser : α → Elem),
          xml_subelement truthy ser none e = e
          ∧ (∀ x : α, truthy x = false → xml_subelement truthy ser (some x) e = e)
          ∧ (∀ x : α, truthy x = true → xml_subelement truthy ser (some x) e
              = Elem.mk e.tag e.text (e.children ++ [ser x]))) := by
  intro ns node_name e
  rcases e with ⟨t, x, cs⟩
  refine ⟨⟨rfl, rfl, fun s hs => ?_⟩, ⟨rfl, rfl, rfl⟩,
    ⟨rfl, rfl, fun n hn => ?_⟩, ⟨rfl, rfl, fun v hv => ?_⟩,
    fun α value => ⟨rfl, fun m => rfl⟩,
    fun α truthy ser => ⟨rfl, fun y hy => ?_, fun y hy => ?_⟩⟩
  · simp [simple_text_subelement, hs]
  · simp [int_subelement, hn]
  · simp [float_subelement, hv]
  · simp [xml_subelement, hy]
  · simp [xml_subelement, hy]

/-- C2 witness: the writer contract evaluated at concrete inputs. -/
theorem claim_C2_writer_contract_witness :
    ("abc" ≠ "" ∧ simple_text_subelement "k" (some "abc") "x" (Elem.mk "t" none [])
        = Elem.mk "t" none [Elem.mk "kx" (some "abc") []])
    ∧ ((5 : Int) ≠ 0 ∧ int_subelement "k" (some 5) "x" (Elem.mk "t" none [])
        = Elem.mk "t" none [Elem.mk "kx" (some "5") []])
    ∧ (ViewVolume.toBool ⟨"k", some 1, some 2, some 3, some 4, some 5⟩ = true
      ∧ xml_subelement ViewVolume.toBool ViewVolume.etree_element
          (some ⟨"k", some 1, some 2, some 3, some 4, some 5⟩) (Elem.mk "t" none [])
        = Elem.mk "t" none
            [ViewVolume.etree_element ⟨"k", some 1, some 2, some 3, some 4, some 5⟩]) :=
  ⟨⟨by decide, (claim_C2_writer_contract "k" "x" (Elem.mk "t" none [])).1.2.2 "abc" (by decide)⟩,
   ⟨by decide, (claim_C2_writer_contract "k" "x" (Elem.mk "t" none [])).2.2.1.2.2 5 (by decide)⟩,
   ⟨by decide, ((claim_C2_writer_contract "k" "x" (Elem.mk "t" none [])).2.2.2.2.2
      ViewVolume ViewVolume.toBool ViewVolume.etree_element).2.2
      ⟨"k", some 1, some 2, some 3, some 4, some 5⟩ (by decide)⟩⟩

/-- C3: each field-codec reader returns the empty mapping and raises no
error when no child named `{ns}{node_name}` exists, even in strict
mode, and likewise returns the empty mapping when the child exists but
its text node is absent, empty or whitespace-only. -/
theorem claim_C3_reader_missing_or_blank :
    ∀ (e : Elem) (ns node_name : String) (strict : Bool)
      (α : Type) (fromToken : String → Option α),
      (e.findChild (ns ++ node_name) = none →
        subelement_text_kwarg e ns node_name strict = none
        ∧ subelement_bool_kwarg e ns node_name strict = .ok none
        ∧ subelement_int_kwarg e ns node_name strict = .ok none
        ∧ subelement_float_kwarg e ns node_name strict = .ok none
        ∧ subelement_enum_kwarg fromToken e ns node_name strict = .ok none)
      ∧ (∀ (node : Elem) (t : String),
          e.findChild (ns ++ node_name) = some node →
          (node.text = none ∨ (node.text = some t ∧ pyStrip t = "")) →
          subelement_text_kwarg e ns node_name strict = none
          ∧ subelement_bool_kwarg e ns node_name strict = .ok none
          ∧ subelement_int_kwarg e ns node_name strict = .ok none
          ∧ subelement_float_kwarg e ns node_name strict = .ok none
          ∧ subelement_enum_kwarg fromToken e ns node_name strict = .ok none) := by
  intro e ns node_name strict α fromToken
  constructor
  · intro hfind
    refine ⟨?_, ?_, ?_, ?_, ?_⟩
      <;> simp [subelement_text_kwarg, subelement_bool_kwarg,
        subelement_int_kwarg, subelement_float_kwarg, subelement_enum_kwarg,
        hfind]
  · intro node t hfind htext
    rcases htext with hnone | ⟨hsome, hstrip⟩
    · refine ⟨?_, ?_, ?_, ?_, ?_⟩
        <;> simp [subelement_text_kwarg, subelement_bool_kwarg,
          subelement_int_kwarg, subelement_float_kwarg, subelement_enum_kwarg,
          hfind, hnone]
    · refine ⟨?_, ?_, ?_, ?_, ?_⟩
        <;> simp [subelement_text_kwarg, subelement_bool_kwarg,
          subelement_int_kwarg, subelement_float_kwarg, subelement_enum_kwarg,
          hfind, hsome, hstrip]

/-- C3 witness: the reader contract evaluated on a childless element
and on a whitespace-only text node, in strict mode. -/
theorem claim_C3_reader_missing_or_blank_witness :
    ((Elem.mk "t" none []).findChild "kx" = none
      ∧ subelement_bool_kwarg (Elem.mk "t" none []) "k" "x" true = .ok none)
    ∧ ((Elem.mk "t" none [Elem.mk "kx" (some "  ") []]).findChild "kx"
        = some (Elem.mk "kx" (some "  ") [])
      ∧ pyStrip "  " = ""
      ∧ subelement_int_kwarg (Elem.mk "t" none [Elem.mk "kx" (some "  ") []]) "k" "x" true
        = .ok none) :=
  ⟨⟨rfl, ((claim_C3_reader_missing_or_blank (Elem.mk "t" none []) "k" "x" true
      AltitudeMode AltitudeMode.fromToken).1 rfl).2.1⟩,
   ⟨rfl, by decide,
    ((claim_C3_reader_missing_or_blank (Elem.mk "t" none [Elem.mk "kx" (some "  ") []])
        "k" "x" true AltitudeMode AltitudeMode.fromToken).2
      (Elem.mk "kx" (some "  ") []) "  " rfl
      (Or.inr ⟨rfl, by decide⟩)).2.2.1⟩⟩

/-- C6: for a boolean subelement with non-empty text, the strict reader
requires the text to be an integer literal, mapping nonzero to `True`
and zero to `False` and raising on anything else; the lenient reader
maps case-insensitive `"1"`/`"true"` to `True` and `"0"`/`"false"` to
`False`, and returns the empty mapping on any other text, raising no
error. -/
theorem claim_C6_bool_reader_text :
    ∀ (e : Elem) (ns node_name : String) (node : Elem) (t : String),
      e.findChild (ns ++ node_name) = some node →
      node.text = some t →
      t ≠ "" → pyStrip t ≠ "" →
      (∀ n : Int, pyIntParse (pyStrip t) = some n →
        subelement_bool_kwarg e ns node_name true = .ok (some (n != 0)))
      ∧ (pyIntParse (pyStrip t) = none →
        subelement_bool_kwarg e ns node_name true
          = .error (.numParse node_name (pyStrip t)))
      ∧ ((pyLower (pyStrip t) = "1" ∨ pyLower (pyStrip t) = "true") →
        subelement_bool_kwarg e ns node_name false = .ok (some true))
      ∧ (¬(pyLower (pyStrip t) = "1" ∨ pyLower (pyStrip t) = "true") →
        (pyLower (pyStrip t) = "0" ∨ pyLower (pyStrip t) = "false") →
        subelement_bool_kwarg e ns node_name false = .ok (some false))
      ∧ (¬(pyLower (pyStrip t) = "1" ∨ pyLower (pyStrip t) = "true") →
        ¬(pyLower (pyStrip t) = "0" ∨ pyLower (pyStrip t) = "false") →
        subelement_bool_kwarg e ns node_name false = .ok none) := by
  intro e ns node_name node t hfind htext ht hstrip
  refine ⟨fun n hn => ?_, fun hn => ?_, fun h1 => ?_, fun h1 h0 => ?_,
    fun h1 h0 => ?_⟩
  · simp [subelement_bool_kwarg, hfind, htext, ht, hstrip, hn]
  · simp [subelement_bool_kwarg, hfind, htext, ht, hstrip, hn]
  · simp [subelement_bool_kwarg, hfind, htext, ht, hstrip, h1]
  · simp [subelement_bool_kwarg, hfind, htext, ht, hstrip, h1, h0]
  · simp [subelement_bool_kwarg, hfind, htext, ht, hstrip, h1, h0]

/-- C6 witness: the boolean reader evaluated on concrete strict and
lenient inputs. -/
theorem claim_C6_bool_reader_text_witness :
    ((Elem.mk "t" none [Elem.mk "kx" (some " -2 ") []]).findChild "kx"
        = some (Elem.mk "kx" (some " -2 ") [])
      ∧ pyIntParse (pyStrip " -2 ") = some (-2)
      ∧ subelement_bool_kwarg (Elem.mk "t" none [Elem.mk "kx" (some " -2 ") []])
          "k" "x" true = .ok (some true))
    ∧ ((Elem.mk "t" none [Elem.mk "kx" (some "TrUe") []]).findChild "kx"
        = some (Elem.mk "kx" (some "TrUe") [])
      ∧ pyLower (pyStrip "TrUe") = "true"
      ∧ subelement_bool_kwarg (Elem.mk "t" none [Elem.mk "kx" (some "TrUe") []])
          "k" "x" false = .ok (some true))
    ∧ subelement_bool_kwarg (Elem.mk "t" none [Elem.mk "kx" (some "yes") []])
        "k" "x" false = .ok none :=
  ⟨⟨rfl, by decide, by
    simpa using (claim_C6_bool_reader_text
      (Elem.mk "t" none [Elem.mk "kx" (some " -2 ") []])
      "k" "x" (Elem.mk "kx" (some " -2 ") []) " -2 " rfl rfl (by decide)
      (by decide)).1 (-2) (by decide)⟩,
   ⟨rfl, by decide,
    (claim_C6_bool_reader_text (Elem.mk "t" none [Elem.mk "kx" (some "TrUe") []])
      "k" "x" (Elem.mk "kx" (some "TrUe") []) "TrUe" rfl rfl (by decide)
      (by decide)).2.2.1 (by decide)⟩,
   (claim_C6_bool_reader_text (Elem.mk "t" none [Elem.mk "kx" (some "yes") []])
      "k" "x" (Elem.mk "kx" (some "yes") []) "yes" rfl rfl (by decide)
      (by decide)).2.2.2.2 (by decide) (by decide)⟩

/-- C7: the convenience operation `SetLatLonBox` validates `north` and
`south` against `[-90, 90]` and `east`, `west` and `rotation` against
`[-180, 180]`, fails with a `ValidationError` naming the first
offending field when any bound is out of range — assigning none of the
bounds, since no overlay is produced on failure — and on success
stores all five values. -/
theorem claim_C7_set_lat_lon_box :
    ∀ (g : GroundOverlay) (n s e w r : MFloat),
      (¬(-90 ≤ n ∧ n ≤ 90) →
        g.lat_lon_box_set n s e w r = .error (.validation "north"))
      ∧ ((-90 ≤ n ∧ n ≤ 90) → ¬(-90 ≤ s ∧ s ≤ 90) →
        g.lat_lon_box_set n s e w r = .error (.validation "south"))
      ∧ ((-90 ≤ n ∧ n ≤ 90) → (-90 ≤ s ∧ s ≤ 90) → ¬(-180 ≤ e ∧ e ≤ 180) →
        g.lat_lon_box_set n s e w r = .error (.validation "east"))
      ∧ ((-90 ≤ n ∧ n ≤ 90) → (-90 ≤ s ∧ s ≤ 90) → (-180 ≤ e ∧ e ≤ 180) →
        ¬(-180 ≤ w ∧ w ≤ 180) →
        g.lat_lon_box_set n s e w r = .error (.validation "west"))
      ∧ ((-90 ≤ n ∧ n ≤ 90) → (-90 ≤ s ∧ s ≤ 90) → (-180 ≤ e ∧ e ≤ 180) →
        (-180 ≤ w ∧ w ≤ 180) → ¬(-180 ≤ r ∧ r ≤ 180) →
        g.lat_lon_box_set n s e w r = .error (.validation "rotation"))
      ∧ ((-90 ≤ n ∧ n ≤ 90) → (-90 ≤ s ∧ s ≤ 90) → (-180 ≤ e ∧ e ≤ 180) →
        (-180 ≤ w ∧ w ≤ 180) → (-180 ≤ r ∧ r ≤ 180) →
        g.lat_lon_box_set n s e w r
          = .ok { g with
                  lat_lon_box := some ⟨g.ns, some n, some s, some e,
                                       some w, some r⟩ }) := by
  intro g n s e w r
  refine ⟨fun h1 => ?_, fun h1 h2 => ?_, fun h1 h2 h3 => ?_,
    fun h1 h2 h3 h4 => ?_, fun h1 h2 h3 h4 h5 => ?_, fun h1 h2 h3 h4 h5 => ?_⟩
  · simp [GroundOverlay.lat_lon_box_set, h1]
  · simp [GroundOverlay.lat_lon_box_set, h1, h2]
  · simp [GroundOverlay.lat_lon_box_set, h1, h2, h3]
  · simp [GroundOverlay.lat_lon_box_set, h1, h2, h3, h4]
  · simp [GroundOverlay.lat_lon_box_set, h1, h2, h3, h4, h5]
  · simp [GroundOverlay.lat_lon_box_set, h1, h2, h3, h4, h5]

/-- C7 witness: the out-of-range `north = 91` fails naming `north` and
leaves no overlay to assign from, and an in-range call succeeds. -/
theorem claim_C7_set_lat_lon_box_witness :
    (¬(-90 ≤ (91 : MFloat) ∧ (91 : MFloat) ≤ 90)
      ∧ GroundOverlay.lat_lon_box_set ⟨"", none, none, none, none, none⟩ 91 0 0 0 0
        = .error (.validation "north"))
    ∧ GroundOverlay.lat_lon_box_set ⟨"", none, none, none, none, none⟩ 10 0 10 0 5
        = .ok ⟨"", none, none, none, none,
            some ⟨"", some 10, some 0, some 10, some 0, some 5⟩⟩ :=
  ⟨⟨by decide,
    (claim_C7_set_lat_lon_box ⟨"", none, none, none, none, none⟩ 91 0 0 0 0).1
      (by decide)⟩,
   (claim_C7_set_lat_lon_box ⟨"", none, none, none, none, none⟩ 10 0 10 0 5).2.2.2.2.2
      (by decide) (by decide) (by decide) (by decide) (by decide)⟩

/-- C10: because the writers test attribute truthiness rather than
non-None-ness, a boolean attribute equal to `False`, an integer
attribute equal to `0` and a text attribute equal to the empty string
produce no subelement on serialization, so re-reading the output finds
the field absent: round-trip collapses falsy non-None values to
absent. -/
theorem claim_C10_falsy_collapses_to_absent :
    ∀ (ns node_name : String) (e : Elem) (strict : Bool),
      e.findChild (ns ++ node_name) = none →
      (bool_subelement ns (some false) node_name e = e
        ∧ subelement_bool_kwarg (bool_subelement ns (some false) node_name e)
            ns node_name strict = .ok none)
      ∧ (int_subelement ns (some 0) node_name e = e
        ∧ subelement_int_kwarg (int_subelement ns (some 0) node_name e)
            ns node_name strict = .ok none)
      ∧ (simple_text_subelement ns (some "") node_name e = e
        ∧ subelement_text_kwarg (simple_text_subelement ns (some "") node_name e)
            ns node_name strict = none) := by
  intro ns node_name e strict hfind
  rcases e with ⟨t, x, cs⟩
  refine ⟨⟨rfl, ?_⟩, ⟨rfl, ?_⟩, ⟨rfl, ?_⟩⟩
    <;> simp [bool_subelement, int_subelement, simple_text_subelement,
      subelement_bool_kwarg, subelement_int_kwarg, subelement_text_kwarg,
      hfind]

/-- C10 witness: the falsy collapse evaluated on a concrete element. -/
theorem claim_C10_falsy_collapses_to_absent_witness :
    (Elem.mk "t" none []).findChild "kx" = none
    ∧ int_subelement "k" (some 0) "x" (Elem.mk "t" none []) = Elem.mk "t" none []
    ∧ subelement_int_kwarg (int_subelement "k" (some 0) "x" (Elem.mk "t" none []))
        "k" "x" true = .ok none :=
  ⟨rfl,
   (claim_C10_falsy_collapses_to_absent "k" "x" (Elem.mk "t" none []) true rfl).2.1.1,
   (claim_C10_falsy_collapses_to_absent "k" "x" (Elem.mk "t" none []) true rfl).2.1.2⟩

/-- C9: parsing a `PhotoOverlay` whose `shape` subelement holds an
unrecognized token raises a structured parse error naming `shape` in
strict mode, and in lenient mode yields an entity whose `shape`
attribute is absent (not defaulted to `rectangle`); stated for elements
whose other declared subelements are absent, so that the shape reader
is reached. -/
theorem claim_C9_shape_strict_lenient :
    ∀ (ns : String) (e : Elem) (node : Elem) (t : String),
      e.findChild (ns ++ "color") = none →
      e.findChild (ns ++ "drawOrder") = none →
      e.findChild (ns ++ "rotation") = none →
      e.findChild (ns ++ "ViewVolume") = none →
      e.findChild (ns ++ "ImagePyramid") = none →
      e.findChild (ns ++ "shape") = some node →
      node.text = some t →
      pyStrip t ≠ "" →
      Shape.fromToken (pyStrip t) = none →
      PhotoOverlay.from_element ns true e
          = .error (.enumParse "shape" (pyStrip t))
      ∧ PhotoOverlay.from_element ns false e
          = .ok ⟨ns, none, none, none, none, none, none⟩ := by
  intro ns e node t hc hd hr hv hi hs htext hstrip htok
  constructor
    <;> simp [PhotoOverlay.from_element, subelement_text_kwarg,
      subelement_int_kwarg, subelement_float_kwarg, subelement_enum_kwarg,
      xml_subelement_kwarg, hc, hd, hr, hv, hi, hs, htext, hstrip, htok]

/-- C9 witness: `<shape>invalid</shape>` evaluated concretely in both
modes. -/
theorem claim_C9_shape_strict_lenient_witness :
    ((Elem.mk "PhotoOverlay" none [Elem.mk "shape" (some "invalid") []]).findChild "shape"
        = some (Elem.mk "shape" (some "invalid") [])
      ∧ Shape.fromToken (pyStrip "invalid") = none)
    ∧ PhotoOverlay.from_element "" true
        (Elem.mk "PhotoOverlay" none [Elem.mk "shape" (some "invalid") []])
      = .error (.enumParse "shape" (pyStrip "invalid"))
    ∧ PhotoOverlay.from_element "" false
        (Elem.mk "PhotoOverlay" none [Elem.mk "shape" (some "invalid") []])
      = .ok ⟨"", none, none, none, none, none, none⟩ :=
  ⟨⟨rfl, by decide⟩,
   (claim_C9_shape_strict_lenient ""
      (Elem.mk "PhotoOverlay" none [Elem.mk "shape" (some "invalid") []])
      (Elem.mk "shape" (some "invalid") []) "invalid"
      rfl rfl rfl rfl rfl rfl rfl (by decide) (by decide)).1,
   (claim_C9_shape_strict_lenient ""
      (Elem.mk "PhotoOverlay" none [Elem.mk "shape" (some "invalid") []])
      (Elem.mk "shape" (some "invalid") []) "invalid"
      rfl rfl rfl rfl rfl rfl rfl (by decide) (by decide)).2⟩

/-- C8 counterexample: the claim says a `GroundOverlay` parsed
leniently with a missing `altitudeMode` subelement has the default
`clampToGround`; on the code, the constructor stores the keyword
mapping's value by plain assignment and the enum reader contributes
nothing for a missing child, so the attribute is `None`, not
`clampToGround`. -/
theorem claim_C8_counterexample :
    (GroundOverlay.from_element "" false (Elem.mk "GroundOverlay" none [])).map
        (fun g => g.altitude_mode) = .ok none
    ∧ (none : Option AltitudeMode) ≠ some .clampToGround :=
  ⟨rfl, by decide⟩

/-- C8 (amended): `GroundOverlay.altitude_mode` ranges over the shared
`AltitudeMode` enumeration; when parsing (in either mode) finds no
`altitudeMode` subelement, and when lenient parsing finds one with an
unrecognized token, the resulting entity's `altitude_mode` is absent
(`None`) — no `clampToGround` default is substituted. -/
theorem claim_C8_altitude_mode_absent :
    (∀ (ns : String) (strict : Bool) (e : Elem) (g : GroundOverlay),
      e.findChild (ns ++ "altitudeMode") = none →
      GroundOverlay.from_element ns strict e = .ok g →
      g.altitude_mode = none)
    ∧ (∀ (ns : String) (e : Elem) (node : Elem) (t : String) (g : GroundOverlay),
      e.findChild (ns ++ "altitudeMode") = some node →
      node.text = some t →
      AltitudeMode.fromToken (pyStrip t) = none →
      GroundOverlay.from_element ns false e = .ok g →
      g.altitude_mode = none) := by
  constructor
  · intro ns strict e g hfind hok
    have henum : subelement_enum_kwarg AltitudeMode.fromToken e ns "altitudeMode" strict
        = .ok none := by
      simp [subelement_enum_kwarg, hfind]
    rcases hdro : subelement_int_kwarg e ns "drawOrder" strict with err | dro
      <;> rcases halt : subelement_float_kwarg e ns "altitude" strict with err2 | alt
      <;> rcases hllb : xml_subelement_kwarg "LatLonBox"
            (LatLonBox.from_element ns strict) e ns with err3 | llb
      <;> simp_all [GroundOverlay.from_element]
    simp [← hok]
  · intro ns e node t g hfind htext htok hok
    have henum : subelement_enum_kwarg AltitudeMode.fromToken e ns "altitudeMode" false
        = .ok none := by
      rcases hcase : decide (pyStrip t = "") with _ | _
      · simp at hcase
        simp [subelement_enum_kwarg, hfind, htext, hcase, htok]
      · simp at hcase
        simp [subelement_enum_kwarg, hfind, htext, hcase]
    rcases hdro : subelement_int_kwarg e ns "drawOrder" false with err | dro
      <;> rcases halt : subelement_float_kwarg e ns "altitude" false with err2 | alt
      <;> rcases hllb : xml_subelement_kwarg "LatLonBox"
            (LatLonBox.from_element ns false) e ns with err3 | llb
      <;> simp_all [GroundOverlay.from_element]
    simp [← hok]

/-- C8 witness: the amended behaviour evaluated at a concrete missing
and a concrete invalid `altitudeMode`. -/
theorem claim_C8_altitude_mode_absent_witness :
    ((Elem.mk "GroundOverlay" none []).findChild "altitudeMode" = none
      ∧ GroundOverlay.from_element "" true (Elem.mk "GroundOverlay" none [])
        = .ok ⟨"", none, none, none, none, none⟩
      ∧ (⟨"", none, none, none, none, none⟩ : GroundOverlay).altitude_mode = none)
    ∧ (AltitudeMode.fromToken (pyStrip "fooMode") = none
      ∧ GroundOverlay.from_element "" false
          (Elem.mk "GroundOverlay" none [Elem.mk "altitudeMode" (some "fooMode") []])
        = .ok ⟨"", none, none, none, none, none⟩
      ∧ (⟨"", none, none, none, none, none⟩ : GroundOverlay).altitude_mode = none) :=
  ⟨⟨rfl, rfl,
    claim_C8_altitude_mode_absent.1 "" true (Elem.mk "GroundOverlay" none [])
      ⟨"", none, none, none, none, none⟩ rfl rfl⟩,
   ⟨by decide, rfl,
    claim_C8_altitude_mode_absent.2 ""
      (Elem.mk "GroundOverlay" none [Elem.mk "altitudeMode" (some "fooMode") []])
      (Elem.mk "altitudeMode" (some "fooMode") []) "fooMode"
      ⟨"", none, none, none, none, none⟩ rfl rfl (by decide) rfl⟩⟩

/-- The number of set fields of a `ViewVolume`. -/
def ViewVolume.numSet (v : ViewVolume) : Nat :=
  v.left_fov.elim 0 (fun _ => 1) + v.right_fov.elim 0 (fun _ => 1)
    + v.bottom_fov.elim 0 (fun _ => 1) + v.top_fov.elim 0 (fun _ => 1)
    + v.near.elim 0 (fun _ => 1)

/-- A `ViewVolume` with only four of five fields set is falsy. -/
theorem viewVolume_toBool_of_numSet_four {v : ViewVolume}
    (h : v.numSet = 4) : v.toBool = false := by
  rcases v with ⟨ns, lf, rf, bf, tf, nr⟩
  rcases lf with _ | lf <;> rcases rf with _ | rf <;> rcases bf with _ | bf
    <;> rcases tf with _ | tf <;> rcases nr with _ | nr
    <;> simp_all [ViewVolume.numSet, ViewVolume.toBool]

/-- Appending a child with a non-matching tag does not change a
`find?` by tag. -/
theorem find?_append_singleton_ne (cs : List Elem) (c : Elem) (s : String)
    (h : (c.tag == s) = false) :
    (cs ++ [c]).find? (fun x => x.tag == s) = cs.find? (fun x => x.tag == s) := by
  induction cs with
  | nil => simp [List.find?, h]
  | cons a as ih =>
    rw [List.cons_append, List.find?_cons, List.find?_cons]
    cases a.tag == s
    · exact ih
    · rfl

/-- A falsy nested attribute writes nothing. -/
theorem xml_subelement_of_falsy {α : Type} (truthy : α → Bool) (ser : α → Elem)
    (x : α) (e : Elem) (h : truthy x = false) :
    xml_subelement truthy ser (some x) e = e := by
  simp [xml_subelement, h]

/-- A truthy nested attribute appends exactly its serialization. -/
theorem xml_subelement_of_truthy {α : Type} (truthy : α → Bool) (ser : α → Elem)
    (x : α) (e : Elem) (h : truthy x = true) :
    xml_subelement truthy ser (some x) e = e.withChild (ser x) := by
  simp [xml_subelement, h]

/-- Qualified tags with distinct suffixes `ImagePyramid` and
`ViewVolume` never coincide, whatever the namespaces are. -/
@[simp]
theorem beq_imagePyramid_viewVolume (s1 s2 : String) :
    (s1 ++ "ImagePyramid" == s2 ++ "ViewVolume") = false := by
  rw [beq_eq_false_iff_ne]
  intro hcontra
  have hdata : (s1 ++ "ImagePyramid").data.getLast?
      = (s2 ++ "ViewVolume").data.getLast? := by rw [hcontra]
  rw [String.data_append, String.data_append, List.getLast?_append,
    List.getLast?_append] at hdata
  have h1 : ("ImagePyramid".data).getLast? = some 'd' := by decide
  have h2 : ("ViewVolume".data).getLast? = some 'e' := by decide
  rw [h1, h2] at hdata
  simp [Option.or] at hdata

/-- The text writer leaves a `find?` for a different tag unchanged. -/
theorem findChild_text_subelement (ns : String) (a : Option String)
    (nn : String) (e : Elem) (s : String) (h : (ns ++ nn == s) = false) :
    (text_subelement ns a nn e).findChild s = e.findChild s := by
  rcases e with ⟨t, x, cs⟩
  rcases a with _ | v
  · rfl
  · simp only [text_subelement, simple_text_subelement]
    split
    · simp only [Elem.withChild_mk, Elem.findChild, Elem.children_mk]
      exact find?_append_singleton_ne cs _ s (by simpa using h)
    · rfl

/-- The integer writer leaves a `find?` for a different tag unchanged. -/
theorem findChild_int_subelement (ns : String) (a : Option Int)
    (nn : String) (e : Elem) (s : String) (h : (ns ++ nn == s) = false) :
    (int_subelement ns a nn e).findChild s = e.findChild s := by
  rcases e with ⟨t, x, cs⟩
  rcases a with _ | v
  · rfl
  · simp only [int_subelement]
    split
    · simp only [Elem.withChild_mk, Elem.findChild, Elem.children_mk]
      exact find?_append_singleton_ne cs _ s (by simpa using h)
    · rfl

/-- The float writer leaves a `find?` for a different tag unchanged. -/
theorem findChild_float_subelement (ns : String) (a : Option MFloat)
    (nn : String) (e : Elem) (s : String) (h : (ns ++ nn == s) = false) :
    (float_subelement ns a nn e).findChild s = e.findChild s := by
  rcases e with ⟨t, x, cs⟩
  rcases a with _ | v
  · rfl
  · simp only [float_subelement]
    split
    · simp only [Elem.withChild_mk, Elem.findChild, Elem.children_mk]
      exact find?_append_singleton_ne cs _ s (by simpa using h)
    · rfl

/-- The enum writer leaves a `find?` for a different tag unchanged. -/
theorem findChild_enum_subelement {α : Type} (value : α → String) (ns : String)
    (a : Option α) (nn : String) (e : Elem) (s : String)
    (h : (ns ++ nn == s) = false) :
    (enum_subelement value ns a nn e).findChild s = e.findChild s := by
  rcases e with ⟨t, x, cs⟩
  rcases a with _ | v
  · rfl
  · simp only [enum_subelement, Elem.withChild_mk, Elem.findChild,
      Elem.children_mk]
    exact find?_append_singleton_ne cs _ s (by simpa using h)

/-- The nested writer leaves a `find?` for a different tag unchanged
whenever the tag it may emit does not match. -/
theorem findChild_xml_subelement {α : Type} (truthy : α → Bool) (ser : α → Elem)
    (a : Option α) (e : Elem) (s : String)
    (h : ∀ x, a = some x → ((ser x).tag == s) = false) :
    (xml_subelement truthy ser a e).findChild s = e.findChild s := by
  rcases e with ⟨t, x, cs⟩
  rcases a with _ | v
  · rfl
  · simp only [xml_subelement]
    split
    · simp only [Elem.withChild_mk, Elem.findChild, Elem.children_mk]
      exact find?_append_singleton_ne cs _ s (h v rfl)
    · rfl

/-- The text writer leaves a tag-filter for a different tag unchanged. -/
theorem filter_text_subelement (ns : String) (a : Option String)
    (nn : String) (e : Elem) (s : String) (h : (ns ++ nn == s) = false) :
    (text_subelement ns a nn e).children.filter (fun c => c.tag == s)
      = e.children.filter (fun c => c.tag == s) := by
  rcases e with ⟨t, x, cs⟩
  rcases a with _ | v
  · rfl
  · simp only [text_subelement, simple_text_subelement]
    split
    · simp [List.filter_append, h]
    · rfl

/-- The integer writer leaves a tag-filter for a different tag
unchanged. -/
theorem filter_int_subelement (ns : String) (a : Option Int)
    (nn : String) (e : Elem) (s : String) (h : (ns ++ nn == s) = false) :
    (int_subelement ns a nn e).children.filter (fun c => c.tag == s)
      = e.children.filter (fun c => c.tag == s) := by
  rcases e with ⟨t, x, cs⟩
  rcases a with _ | v
  · rfl
  · simp only [int_subelement]
    split
    · simp [List.filter_append, h]
    · rfl

/-- The float writer leaves a tag-filter for a different tag
unchanged. -/
theorem filter_float_subelement (ns : String) (a : Option MFloat)
    (nn : String) (e : Elem) (s : String) (h : (ns ++ nn == s) = false) :
    (float_subelement ns a nn e).children.filter (fun c => c.tag == s)
      = e.children.filter (fun c => c.tag == s) := by
  rcases e with ⟨t, x, cs⟩
  rcases a with _ | v
  · rfl
  · simp only [float_subelement]
    split
    · simp [List.filter_append, h]
    · rfl

/-- The enum writer leaves a tag-filter for a different tag unchanged. -/
theorem filter_enum_subelement {α : Type} (value : α → String) (ns : String)
    (a : Option α) (nn : String) (e : Elem) (s : String)
    (h : (ns ++ nn == s) = false) :
    (enum_subelement value ns a nn e).children.filter (fun c => c.tag == s)
      = e.children.filter (fun c => c.tag == s) := by
  rcases e with ⟨t, x, cs⟩
  rcases a with _ | v
  · rfl
  · simp [enum_subelement, List.filter_append, h]

/-- The nested writer leaves a tag-filter unchanged whenever the tag it
may emit does not match. -/
theorem filter_xml_subelement {α : Type} (truthy : α → Bool) (ser : α → Elem)
    (a : Option α) (e : Elem) (s : String)
    (h : ∀ x, a = some x → ((ser x).tag == s) = false) :
    (xml_subelement truthy ser a e).children.filter (fun c => c.tag == s)
      = e.children.filter (fun c => c.tag == s) := by
  rcases e with ⟨t, x, cs⟩
  rcases a with _ | v
  · rfl
  · simp only [xml_subelement]
    split
    · simp [List.filter_append, h v rfl]
    · rfl

/-- The nested writer appends exactly its matching serialization to a
tag-filter when the attribute is truthy and its tag matches. -/
theorem filter_xml_subelement_keep {α : Type} (truthy : α → Bool)
    (ser : α → Elem) (x : α) (e : Elem) (s : String)
    (ht : truthy x = true) (htag : ((ser x).tag == s) = true) :
    (xml_subelement truthy ser (some x) e).children.filter (fun c => c.tag == s)
      = e.children.filter (fun c => c.tag == s) ++ [ser x] := by
  rcases e with ⟨t, y, cs⟩
  simp [xml_subelement, ht, List.filter_append, htag]

/-- C5 counterexample: the claim says a `PhotoOverlay` whose view
volume has all five fields set serializes to exactly one `ViewVolume`
element containing all five children; with all five set but
`left_fov = 0`, the writers' omit-falsy rule drops the `leftFov` child,
so the unique `ViewVolume` element carries only four children. -/
theorem claim_C5_counterexample :
    (ViewVolume.numSet ⟨"", some 0, some 1, some 2, some 3, some 4⟩ = 5)
    ∧ ((PhotoOverlay.etree_element
        ⟨"", none, none, none, some ⟨"", some 0, some 1, some 2, some 3, some 4⟩,
          none, none⟩).children.filter (fun c => c.tag == "ViewVolume")
      = [ViewVolume.etree_element ⟨"", some 0, some 1, some 2, some 3, some 4⟩])
    ∧ ((ViewVolume.etree_element ⟨"", some 0, some 1, some 2, some 3, some 4⟩).children.map
        Elem.tag = ["rightFov", "bottomFov", "topFov", "near"])
    ∧ (["rightFov", "bottomFov", "topFov", "near"] : List String)
        ≠ ["leftFov", "rightFov", "bottomFov", "topFov", "near"] :=
  ⟨rfl, rfl, rfl, by decide⟩

/-- C5 (amended): for every `PhotoOverlay` whose view volume has
exactly four of its five fields set, serialization emits no
`ViewVolume` child at all; with all five fields set to truthy (nonzero)
values and the parent's namespace, serialization emits exactly one
`ViewVolume` element containing exactly the five children
`leftFov, rightFov, bottomFov, topFov, near` in that order (a field
set to the falsy `0` is omitted from the emitted element, as the
counterexample to the original wording shows). -/
theorem claim_C5_view_volume_presence :
    (∀ (p : PhotoOverlay) (vv : ViewVolume),
      p.view_volume = some vv → vv.numSet = 4 →
      (p.etree_element).findChild (p.ns ++ "ViewVolume") = none)
    ∧ (∀ (p : PhotoOverlay) (vv : ViewVolume),
      p.view_volume = some vv → vv.ns = p.ns → vv.allTruthy = true →
      ((p.etree_element).children.filter (fun c => c.tag == p.ns ++ "ViewVolume")
          = [vv.etree_element])
      ∧ (vv.etree_element).children.map Elem.tag
          = [p.ns ++ "leftFov", p.ns ++ "rightFov", p.ns ++ "bottomFov",
             p.ns ++ "topFov", p.ns ++ "near"]) := by
  constructor
  · intro p vv hvv h4
    have hfalse := viewVolume_toBool_of_numSet_four h4
    unfold PhotoOverlay.etree_element
    rw [findChild_enum_subelement _ _ _ _ _ _ (by simp),
      findChild_xml_subelement _ _ _ _ _ (fun x _ => by simp),
      hvv, xml_subelement_of_falsy _ _ _ _ hfalse,
      findChild_float_subelement _ _ _ _ _ (by simp),
      findChild_int_subelement _ _ _ _ _ (by simp),
      findChild_text_subelement _ _ _ _ _ (by simp)]
    rfl
  · intro p vv hvv hns htruthy
    constructor
    · have htb := viewVolumeToBool_of_allTruthy htruthy
      unfold PhotoOverlay.etree_element
      rw [filter_enum_subelement _ _ _ _ _ _ (by simp),
        filter_xml_subelement _ _ _ _ _ (fun x _ => by simp),
        hvv, filter_xml_subelement_keep _ _ _ _ _ htb (by simp [hns]),
        filter_float_subelement _ _ _ _ _ (by simp),
        filter_int_subelement _ _ _ _ _ (by simp),
        filter_text_subelement _ _ _ _ _ (by simp)]
      rfl
    · rcases vv with ⟨vns, lf, rf, bf, tf, nr⟩
      rcases lf with _ | lf <;> rcases rf with _ | rf <;> rcases bf with _ | bf
        <;> rcases tf with _ | tf <;> rcases nr with _ | nr
        <;> simp_all [ViewVolume.allTruthy, numSetTruthy]
      obtain ⟨⟨⟨⟨hlf, hrf⟩, hbf⟩, htf⟩, hnr⟩ := htruthy
      simp [ViewVolume.etree_element, float_subelement, hlf, hrf, hbf, htf, hnr]

/-- C5 witness: the amended statement evaluated at a four-of-five view
volume and at a fully truthy one. -/
theorem claim_C5_view_volume_presence_witness :
    (ViewVolume.numSet ⟨"", none, some 1, some 2, some 3, some 4⟩ = 4
      ∧ (PhotoOverlay.etree_element
          ⟨"", some "ff00", none, none,
            some ⟨"", none, some 1, some 2, some 3, some 4⟩, none, none⟩).findChild
          "ViewVolume" = none)
    ∧ (ViewVolume.allTruthy ⟨"", some 1, some 2, some 3, some 4, some 5⟩ = true
      ∧ (PhotoOverlay.etree_element
          ⟨"", some "ff00", none, none,
            some ⟨"", some 1, some 2, some 3, some 4, some 5⟩, none, none⟩).children.filter
          (fun c => c.tag == "ViewVolume")
        = [ViewVolume.etree_element ⟨"", some 1, some 2, some 3, some 4, some 5⟩]
      ∧ (ViewVolume.etree_element
          ⟨"", some 1, some 2, some 3, some 4, some 5⟩).children.map Elem.tag
        = ["leftFov", "rightFov", "bottomFov", "topFov", "near"]) :=
  ⟨⟨by decide,
    claim_C5_view_volume_presence.1
      ⟨"", some "ff00", none, none,
        some ⟨"", none, some 1, some 2, some 3, some 4⟩, none, none⟩
      ⟨"", none, some 1, some 2, some 3, some 4⟩ rfl (by decide)⟩,
   ⟨by decide,
    (claim_C5_view_volume_presence.2
      ⟨"", some "ff00", none, none,
        some ⟨"", some 1, some 2, some 3, some 4, some 5⟩, none, none⟩
      ⟨"", some 1, some 2, some 3, some 4, some 5⟩ rfl rfl (by decide)).1,
    (claim_C5_view_volume_presence.2
      ⟨"", some "ff00", none, none,
        some ⟨"", some 1, some 2, some 3, some 4, some 5⟩, none, none⟩
      ⟨"", some 1, some 2, some 3, some 4, some 5⟩ rfl rfl (by decide)).2⟩⟩

end FastKML
